import Mathlib

/-!
Shallow embedding of the `vnc-rs` VNC client (the code under `src/src/client`,
`src/src/codec` and `src/src/config.rs`) and proofs about its handshake,
authentication, message codec and pixel decoders.

Conventions of the embedding:
* a wire byte (`u8`) is a `Nat`; byte streams (`tokio` `AsyncRead` sources)
  are `List Nat`, and a read consumes a prefix of the list;
* `u16`/`u32` values are `Nat` with explicit `% 2 ^ w` truncation where the
  Rust code can overflow;
* fallible Rust code returns `Res α`: `ok`, `err` (an `Err(VncError)` return),
  `panic` (an `unwrap` on `None`, `unreachable!` or `unimplemented!`), or
  `oot`, which marks fuel exhaustion of the fuel parameters that replace
  unbounded `while` loops (the source would simply keep looping there);
* the external `flate2::Decompress` inflater is a black box to this crate, so
  it is modelled by an abstract state type `σ` together with an
  `InflaterModel σ` giving its `decompress` and `reset` behaviour;
* strings from the wire (`String::from_utf8` results, error messages) are kept
  as their UTF-8 byte sequences (`List Nat`).
-/

namespace VncRs

/-- Error taxonomy of the crate, `src/src/error.rs` (constructor names follow the
source, including the `InvalidSecurityTyep` typo).  `General` stores the UTF-8
bytes of its message string; `IoError` abstracts the wrapped `std::io::Error`
payload away. -/
inductive VncError where
  | NoPassword
  | NoEncoding
  | InvalidSecurityTyep (b : Nat)
  | WrongPassword
  | ConnectError
  | WrongPixelFormat
  | WrongServerMessage
  | InvalidImageData
  | ClientNotRunning
  | IoError
  | General (msg : List Nat)
  deriving DecidableEq, Repr

/-- Outcome of running a piece of the Rust code: a normal return value, an
`Err` return, a panic, or fuel exhaustion (`oot`), the latter being an artifact
of the explicit fuel given to loops whose iteration count the source does not
bound. -/
inductive Res (α : Type) where
  | ok (a : α)
  | err (e : VncError)
  | panic
  | oot
  deriving DecidableEq, Repr

def Res.bind {α β : Type} : Res α → (α → Res β) → Res β
  | .ok a, f => f a
  | .err e, _ => .err e
  | .panic, _ => .panic
  | .oot, _ => .oot

instance : Monad Res where
  pure := Res.ok
  bind := Res.bind

/-- Read one byte (`read_u8`); an exhausted stream is an I/O error
(`UnexpectedEof`). -/
def readU8 : List Nat → Res (Nat × List Nat)
  | [] => .err .IoError
  | b :: rest => .ok (b, rest)

/-- Read exactly `n` bytes (`read_exact`). -/
def readExact (n : Nat) (s : List Nat) : Res (List Nat × List Nat) :=
  if n ≤ s.length then .ok (s.take n, s.drop n) else .err .IoError

/-- Big-endian value of a byte list (as used by `read_u16` / `read_u32` and
`u16::from_be_bytes`). -/
def beNat (l : List Nat) : Nat :=
  l.foldl (fun acc b => acc * 256 + b) 0

/-- Read a big-endian `u16` (`read_u16`). -/
def readU16 (s : List Nat) : Res (Nat × List Nat) := do
  let (b, s) ← readExact 2 s
  .ok (beNat b, s)

/-- Read a big-endian `u32` (`read_u32`). -/
def readU32 (s : List Nat) : Res (Nat × List Nat) := do
  let (b, s) ← readExact 4 s
  .ok (beNat b, s)

/-- One step of Rust's UTF-8 validation automaton: `rem` continuation bytes are
still expected, the next one being constrained to `[lo, hi]` (later ones to
`[0x80, 0xBF]`).  Follows the ranges enforced by `core::str::from_utf8`, which
is what `read_to_string` uses. -/
def utf8Go : List Nat → Nat → Nat → Nat → Bool
  | [], rem, _, _ => rem == 0
  | b :: rest, rem, lo, hi =>
    if 0 < rem then
      if lo ≤ b ∧ b ≤ hi then utf8Go rest (rem - 1) 0x80 0xBF else false
    else if b ≤ 0x7F then utf8Go rest 0 0x80 0xBF
    else if 0xC2 ≤ b ∧ b ≤ 0xDF then utf8Go rest 1 0x80 0xBF
    else if b = 0xE0 then utf8Go rest 2 0xA0 0xBF
    else if b = 0xED then utf8Go rest 2 0x80 0x9F
    else if 0xE1 ≤ b ∧ b ≤ 0xEF then utf8Go rest 2 0x80 0xBF
    else if b = 0xF0 then utf8Go rest 3 0x90 0xBF
    else if b = 0xF4 then utf8Go rest 3 0x80 0x8F
    else if 0xF1 ≤ b ∧ b ≤ 0xF3 then utf8Go rest 3 0x80 0xBF
    else false

/-- Whether a byte sequence is valid UTF-8 (Rust `core::str::from_utf8`). -/
def validUtf8 (s : List Nat) : Bool := utf8Go s 0 0x80 0xBF

/-- Model of `read_to_string`: consumes the whole remaining stream (reads until
EOF) and fails if the bytes are not valid UTF-8. -/
def readToString (s : List Nat) : Res (List Nat × List Nat) :=
  if validUtf8 s then .ok (s, []) else .err .IoError

/-! ## VNC-Auth key derivation (`src/src/client/auth.rs`, `AuthHelper::read`) -/

/-- The inner bit-reversal loop of `AuthHelper::read`:
`for j in 0..8 { cs |= ((c >> j) & 1) << (7 - j) }`. -/
def bitReverseByte (c : Nat) : Nat :=
  (List.range 8).foldl (fun cs j => cs ||| (((c >>> j) &&& 1) <<< (7 - j))) 0

/-- The 8-byte DES key built by `AuthHelper::read` from the password bytes:
`key[i] = bit-reverse(if i < len { credential[i] } else { 0 })`. -/
def authKey (credential : List Nat) : List Nat :=
  (List.range 8).map (fun i => bitReverseByte (credential.getD i 0))

/-- State built by `AuthHelper::read`: the 16-byte server challenge and the
derived DES key. -/
structure AuthHelper where
  challenge : List Nat
  key : List Nat
  deriving DecidableEq, Repr

/-- Model of `AuthHelper::read`: read the 16-byte challenge, then derive the
key from the password bytes. -/
def authHelperRead (stream : List Nat) (credential : List Nat) :
    Res (AuthHelper × List Nat) := do
  let (challenge, s) ← readExact 16 stream
  .ok (⟨challenge, authKey credential⟩, s)

/-! ## Version negotiation (`src/src/config.rs`, `src/src/client/connector.rs`) -/

/-- The three protocol versions (`src/src/config.rs`).  The Rust enum derives
`PartialOrd`, so the declaration order RFB33 < RFB37 < RFB38 is the order. -/
inductive VncVersion where
  | RFB33
  | RFB37
  | RFB38
  deriving DecidableEq, Repr

/-- ASCII bytes of "RFB 003.003\n". -/
def rfb33Banner : List Nat :=
  [0x52, 0x46, 0x42, 0x20, 0x30, 0x30, 0x33, 0x2E, 0x30, 0x30, 0x33, 0x0A]

/-- ASCII bytes of "RFB 003.007\n". -/
def rfb37Banner : List Nat :=
  [0x52, 0x46, 0x42, 0x20, 0x30, 0x30, 0x33, 0x2E, 0x30, 0x30, 0x37, 0x0A]

/-- ASCII bytes of "RFB 003.008\n". -/
def rfb38Banner : List Nat :=
  [0x52, 0x46, 0x42, 0x20, 0x30, 0x30, 0x33, 0x2E, 0x30, 0x30, 0x38, 0x0A]

/-- Model of `impl From<[u8; 12]> for VncVersion`: the three known banners,
every other 12-byte banner is interpreted as RFB 3.3 (RFC 6143 §7.1.1). -/
def vncVersionOfBanner (b : List Nat) : VncVersion :=
  if b = rfb33Banner then .RFB33
  else if b = rfb37Banner then .RFB37
  else if b = rfb38Banner then .RFB38
  else .RFB33

/-- Model of `impl From<VncVersion> for &[u8; 12]`. -/
def bannerOfVncVersion : VncVersion → List Nat
  | .RFB33 => rfb33Banner
  | .RFB37 => rfb37Banner
  | .RFB38 => rfb38Banner

/-- Discriminant of the `VncVersion` enum, which is what the derived Rust
`PartialOrd` compares. -/
def VncVersion.rank : VncVersion → Nat
  | .RFB33 => 0
  | .RFB37 => 1
  | .RFB38 => 2

/-- The derived `<` on `VncVersion`. -/
def vncVersionLt (a b : VncVersion) : Bool := a.rank < b.rank

/-- Model of the `VncState::Handshake` arm of `VncState::try_start`
(`src/src/client/connector.rs` lines 32-50): read 12 banner bytes, negotiate
`if our < server { our } else { server }`, write the banner of the negotiated
version.  Returns the negotiated version, the bytes written back, and the rest
of the stream. -/
def handshake (clientMax : VncVersion) (stream : List Nat) :
    Res ((VncVersion × List Nat) × List Nat) := do
  let (banner, s) ← readExact 12 stream
  let serverVer := vncVersionOfBanner banner
  let negotiated := if vncVersionLt clientMax serverVer then clientMax else serverVer
  .ok ((negotiated, bannerOfVncVersion negotiated), s)

/-! ## PixelFormat wire codec (`src/src/config.rs`) -/

/-- The 16-byte RFB pixel format (`src/src/config.rs`).  Field types in the
source: `bits_per_pixel`, `depth`, `big_endian_flag`, `true_color_flag`, the
three shifts and the three padding bytes are `u8`; the three max values are
`u16`. -/
structure PixelFormat where
  bits_per_pixel : Nat
  depth : Nat
  big_endian_flag : Nat
  true_color_flag : Nat
  red_max : Nat
  green_max : Nat
  blue_max : Nat
  red_shift : Nat
  green_shift : Nat
  blue_shift : Nat
  _padding_1 : Nat
  _padding_2 : Nat
  _padding_3 : Nat
  deriving DecidableEq, Repr

/-- Model of `impl From<PixelFormat> for Vec<u8>`: the 16-byte wire form, the
max values big-endian (`(max >> 8) as u8`, `max as u8`). -/
def pixelFormatToBytes (pf : PixelFormat) : List Nat :=
  [pf.bits_per_pixel, pf.depth, pf.big_endian_flag, pf.true_color_flag,
   (pf.red_max >>> 8) % 256, pf.red_max % 256,
   (pf.green_max >>> 8) % 256, pf.green_max % 256,
   (pf.blue_max >>> 8) % 256, pf.blue_max % 256,
   pf.red_shift, pf.green_shift, pf.blue_shift,
   pf._padding_1, pf._padding_2, pf._padding_3]

/-- Model of `impl TryFrom<[u8; 16]> for PixelFormat`: rejects
`bits_per_pixel ∉ {8, 16, 32}` with `WrongPixelFormat`, otherwise splits the
16 bytes by position (`u16::from_be_bytes` for the max values). -/
def pixelFormatOfBytes (b : List Nat) : Res PixelFormat :=
  let bits_per_pixel := b.getD 0 0
  if bits_per_pixel ≠ 8 ∧ bits_per_pixel ≠ 16 ∧ bits_per_pixel ≠ 32 then
    .err .WrongPixelFormat
  else
    .ok { bits_per_pixel := bits_per_pixel
          depth := b.getD 1 0
          big_endian_flag := b.getD 2 0
          true_color_flag := b.getD 3 0
          red_max := beNat [b.getD 4 0, b.getD 5 0]
          green_max := beNat [b.getD 6 0, b.getD 7 0]
          blue_max := beNat [b.getD 8 0, b.getD 9 0]
          red_shift := b.getD 10 0
          green_shift := b.getD 11 0
          blue_shift := b.getD 12 0
          _padding_1 := b.getD 13 0
          _padding_2 := b.getD 14 0
          _padding_3 := b.getD 15 0 }

/-- Model of `PixelFormat::default` = `PixelFormat::bgra`. -/
def bgraPixelFormat : PixelFormat :=
  { bits_per_pixel := 32, depth := 24, big_endian_flag := 0, true_color_flag := 1
    red_max := 255, green_max := 255, blue_max := 255
    red_shift := 16, green_shift := 8, blue_shift := 0
    _padding_1 := 0, _padding_2 := 0, _padding_3 := 0 }

/-- Model of `PixelFormat::rgba`. -/
def rgbaPixelFormat : PixelFormat :=
  { bgraPixelFormat with red_shift := 0, blue_shift := 16 }

/-! ## Security types and the handshake failure paths (`src/src/client/auth.rs`,
`src/src/client/connector.rs`) -/

/-- The `SecurityType` enum (`src/src/client/auth.rs`). -/
inductive SecurityType where
  | Invalid
  | None
  | VncAuth
  | RA2
  | RA2ne
  | Tight
  | Ultra
  | Tls
  | VeNCrypt
  | GtkVncSasl
  | Md5Hash
  | ColinDeanXvp
  deriving DecidableEq, Repr

/-- Model of `impl TryFrom<u8> for SecurityType`: the recognised tags, anything
else is `InvalidSecurityTyep`. -/
def securityTypeOfU8 (n : Nat) : Res SecurityType :=
  match n with
  | 0 => .ok .Invalid
  | 1 => .ok .None
  | 2 => .ok .VncAuth
  | 5 => .ok .RA2
  | 6 => .ok .RA2ne
  | 16 => .ok .Tight
  | 17 => .ok .Ultra
  | 18 => .ok .Tls
  | 19 => .ok .VeNCrypt
  | 20 => .ok .GtkVncSasl
  | 21 => .ok .Md5Hash
  | 22 => .ok .ColinDeanXvp
  | other => .err (.InvalidSecurityTyep other)

/-- The failure-message pattern the source repeats in `SecurityType::read` and
in the `Authenticate` arm of `try_start`:
`let _ = reader.read_u32().await?;` (the length is read and discarded) followed
by `reader.read_to_string(&mut err_msg).await?` (everything up to EOF). -/
def readErrorReason (s : List Nat) : Res (List Nat × List Nat) := do
  let (_, s) ← readU32 s
  let (msg, s) ← readToString s
  .ok (msg, s)

/-- The loop of `SecurityType::read` that reads `num` security-type bytes. -/
def readSecurityTypeList (n : Nat) (s : List Nat) :
    Res (List SecurityType × List Nat) :=
  match n with
  | 0 => .ok ([], s)
  | n + 1 => do
    let (b, s) ← readU8 s
    let t ← securityTypeOfU8 b
    let (ts, s) ← readSecurityTypeList n s
    .ok (t :: ts, s)

/-- Model of `SecurityType::read` (`src/src/client/auth.rs` lines 42-82).
RFB33: a `u32` security type, truncated `as u8`; type 0 (`Invalid`) is the
failure path returning `General`.  RFB37/RFB38: a count byte then that many
type bytes; count 0 is the failure path. -/
def securityTypesRead (version : VncVersion) (s : List Nat) :
    Res (List SecurityType × List Nat) :=
  match version with
  | .RFB33 => do
    let (w, s) ← readU32 s
    let t ← securityTypeOfU8 (w % 256)
    match t with
    | .Invalid => do
      let (msg, _) ← readErrorReason s
      (.err (.General msg) : Res (List SecurityType × List Nat))
    | _ => .ok ([t], s)
  | _ => do
    let (num, s) ← readU8 s
    if num = 0 then do
      let (msg, _) ← readErrorReason s
      (.err (.General msg) : Res (List SecurityType × List Nat))
    else
      readSecurityTypeList num s

/-- The `AuthResult` enum (`src/src/client/auth.rs`). -/
inductive AuthResult where
  | Ok
  | Failed
  deriving DecidableEq, Repr

/-- Model of `impl From<u32> for AuthResult`, an unchecked `transmute`: values
other than 0 and 1 are undefined behaviour, modelled as a panic. -/
def authResultOfU32 (n : Nat) : Res AuthResult :=
  match n with
  | 0 => .ok .Ok
  | 1 => .ok .Failed
  | _ => .panic

/-- Model of `AuthHelper::finish` plus the `if let AuthResult::Failed` check in
the `Authenticate` arm (`src/src/client/connector.rs` lines 117-130): read the
4-byte SecurityResult; on failure, RFB37 yields `WrongPassword`, the other
versions read a discarded `u32` length and then everything up to EOF as the
`General` error message. -/
def authResultHandle (version : VncVersion) (s : List Nat) :
    Res (Unit × List Nat) := do
  let (w, s) ← readU32 s
  let r ← authResultOfU32 w
  match r with
  | .Failed =>
    if version = .RFB37 then
      (.err .WrongPassword : Res (Unit × List Nat))
    else do
      let (msg, _) ← readErrorReason s
      (.err (.General msg) : Res (Unit × List Nat))
  | .Ok => .ok ((), s)

/-! ## ZRLE compressed-bpp rule (`src/src/codec/zrle.rs` lines 71-95) -/

/-- The combined channel mask
`(red_max as u32) << red_shift | (green_max as u32) << green_shift |
(blue_max as u32) << blue_shift`, computed by the Tight, ZRLE and Cursor
decoders.  The `% 2 ^ 32` models the `u32` width (a shift count ≥ 32 would
actually be an arithmetic-overflow panic in Rust; every pixel format sent on
the wire keeps the shifts below 32). -/
def pixelMask (pf : PixelFormat) : Nat :=
  ((pf.red_max <<< pf.red_shift) % 2 ^ 32) |||
    ((pf.green_max <<< pf.green_shift) % 2 ^ 32) |||
    ((pf.blue_max <<< pf.blue_shift) % 2 ^ 32)

/-- The `(compressed_bpp, alpha_at_first)` computation of `ZrleDecoder::decode`
(`src/src/codec/zrle.rs` lines 71-95). -/
def zrleCompressedInfo (pf : PixelFormat) : Nat × Bool :=
  let bpp := pf.bits_per_pixel / 8
  let mask := pixelMask pf
  if pf.bits_per_pixel = 32 ∧ pf.true_color_flag > 0 ∧ pf.depth ≤ 24 then
    if mask &&& 0x000000ff = 0 then (3, decide (pf.big_endian_flag = 0))
    else if mask &&& 0xff000000 = 0 then (3, decide (pf.big_endian_flag > 0))
    else (4, false)
  else (bpp, false)

/-! ## Server messages (`src/src/client/messages.rs`) -/

/-- The parsed server message headers (`src/src/client/messages.rs`).
`ServerCutText` keeps the raw payload bytes (the source converts them with
`String::from_utf8_lossy`). -/
inductive ServerMsg where
  | FramebufferUpdate (rects : Nat)
  | Bell
  | ServerCutText (text : List Nat)
  deriving DecidableEq, Repr

/-- Model of `ServerMsg::read` (`src/src/client/messages.rs` lines 131-194).
Type 0 reads a padding byte and a `u16` rectangle count; type 1
(SetColorMapEntries) is `unimplemented!()`, a panic; type 2 is `Bell`; type 3
reads 3 padding bytes, a `u32` length and that many text bytes; every other
type byte is the `WrongServerMessage` error. -/
def serverMsgRead (s : List Nat) : Res (ServerMsg × List Nat) := do
  let (t, s) ← readU8 s
  match t with
  | 0 => do
    let (_, s) ← readU8 s
    let (rects, s) ← readU16 s
    .ok (.FramebufferUpdate rects, s)
  | 1 => .panic
  | 2 => .ok (.Bell, s)
  | 3 => do
    let (_, s) ← readExact 3 s
    let (len, s) ← readU32 s
    let (txt, s) ← readExact len s
    .ok (.ServerCutText txt, s)
  | _ => .err .WrongServerMessage

/-! ## Events and the session state (`src/src/client/connection.rs`) -/

/-- A rectangle header (`src/src/event.rs`), all fields `u16`. -/
structure Rect where
  x : Nat
  y : Nat
  width : Nat
  height : Nat
  deriving DecidableEq, Repr

/-- Events surfaced to the application.  The snapshot's `src/src/event.rs` is
an older revision of this enum; the variants here are the ones constructed by
the cited client and codec code (`SetResolution`, `SetPixelFormat`,
`RawImage`, `Copy`, `JpegImage`, `SetCursor`, `Bell`, `Text`, `Error`). -/
inductive VncEvent where
  | SetResolution (width height : Nat)
  | SetPixelFormat (pf : PixelFormat)
  | RawImage (rect : Rect) (data : List Nat)
  | Copy (dst src : Rect)
  | JpegImage (rect : Rect) (data : List Nat)
  | SetCursor (rect : Rect) (data : List Nat)
  | Bell
  | Text (s : List Nat)
  | Error (s : List Nat)
  deriving DecidableEq, Repr

/-- Client-side input events (`X11Event` as used by `VncInner::input`;
`CopyText` keeps the UTF-8 bytes). -/
inductive X11Event where
  | Refresh
  | FullRefresh
  | KeyEvent (keycode : Nat) (down : Bool)
  | PointerEvent (x y buttons : Nat)
  | CopyText (text : List Nat)
  deriving DecidableEq, Repr

/-- Client messages queued for the writer task (`src/src/client/messages.rs`).
The second field of `FramebufferUpdateRequest` is the `incremental` byte. -/
inductive ClientMsg where
  | SetPixelFormat (pf : PixelFormat)
  | SetEncodings (encodings : List Int)
  | FramebufferUpdateRequest (rect : Rect) (incremental : Nat)
  | KeyEvent (keycode : Nat) (down : Bool)
  | PointerEvent (x y buttons : Nat)
  | ClientCutText (text : List Nat)
  deriving DecidableEq, Repr

/-- State of a connected session handle (`VncInner` in
`src/src/client/connection.rs`).  The channels are modelled by their
observable content: `inputSent` is the list of messages pushed into the input
channel, `inputClosed` says its receiver is gone, `outputPending` is what the
output channel currently holds and `outputClosed` says its sender is gone.
The two one-shot stop senders are `Option Unit` as in the source. -/
structure VncInner where
  screenWidth : Nat
  screenHeight : Nat
  inputSent : List ClientMsg
  inputClosed : Bool
  outputPending : List VncEvent
  outputClosed : Bool
  decodingStop : Option Unit
  netConnStop : Option Unit
  closed : Bool
  deriving DecidableEq, Repr

/-- Translation of an `X11Event` into the queued `ClientMsg`, as written in
`VncInner::input`. -/
def x11ToClientMsg (st : VncInner) : X11Event → ClientMsg
  | .Refresh =>
    .FramebufferUpdateRequest ⟨0, 0, st.screenWidth, st.screenHeight⟩ 1
  | .FullRefresh =>
    .FramebufferUpdateRequest ⟨0, 0, st.screenWidth, st.screenHeight⟩ 0
  | .KeyEvent keycode down => .KeyEvent keycode down
  | .PointerEvent x y buttons => .PointerEvent x y buttons
  | .CopyText text => .ClientCutText text

/-- Model of `VncInner::input` (`src/src/client/connection.rs` lines 171-203):
fails with `ClientNotRunning` when closed, otherwise sends the translated
message to the input channel (a send on a closed channel is converted to
`General("Channel closed")` by the `From<SendError>` impl; the message bytes
are left abstract as `[]` here since no claim inspects them). -/
def vncInnerInput (st : VncInner) (ev : X11Event) : Res Unit × VncInner :=
  if st.closed then (.err .ClientNotRunning, st)
  else if st.inputClosed then (.err (.General []), st)
  else (.ok (), { st with inputSent := st.inputSent ++ [x11ToClientMsg st ev] })

/-- Outcome of `VncInner::recv_event`: a received event, an error, or a
suspension (`recv().await` parks when the channel is open and empty). -/
inductive RecvOutcome where
  | got (e : VncEvent)
  | errored (e : VncError)
  | blocked
  deriving DecidableEq, Repr

/-- Model of `VncInner::recv_event` (`src/src/client/connection.rs` lines
205-217): `ClientNotRunning` when closed; otherwise take the next output
event; a `None` from the channel (closed and drained) sets `closed` and fails
with `ClientNotRunning`. -/
def vncInnerRecvEvent (st : VncInner) : RecvOutcome × VncInner :=
  if st.closed then (.errored .ClientNotRunning, st)
  else
    match st.outputPending with
    | e :: rest => (.got e, { st with outputPending := rest })
    | [] =>
      if st.outputClosed then
        (.errored .ClientNotRunning, { st with closed := true })
      else (.blocked, st)

/-- Model of `VncInner::poll_event` (`src/src/client/connection.rs` lines
219-233): `ClientNotRunning` when closed; `try_recv` yields `Disconnected`
(set `closed`, fail), `Empty` (`Ok(None)`) or an event. -/
def vncInnerPollEvent (st : VncInner) : Res (Option VncEvent) × VncInner :=
  if st.closed then (.err .ClientNotRunning, st)
  else
    match st.outputPending with
    | e :: rest => (.ok (some e), { st with outputPending := rest })
    | [] =>
      if st.outputClosed then
        (.err .ClientNotRunning, { st with closed := true })
      else (.ok none, st)

/-- Model of `VncInner::close` (`src/src/client/connection.rs` lines 237-248):
fire both stop signals when still present, set `closed`, return `Ok(())`. -/
def vncInnerClose (st : VncInner) : Res Unit × VncInner :=
  (.ok (), { st with netConnStop := none, decodingStop := none, closed := true })

/-! ## The zlib reader (`src/src/codec/zlib.rs`) over an abstract inflater

The crate drives `flate2::Decompress` as a black box, so the inflater is an
abstract state `σ` with an `InflaterModel σ` describing the behaviour of the
external library; every theorem below that involves it holds for every such
model. -/

/-- Status returned by `flate2::Decompress::decompress`. -/
inductive ZlibStatus where
  | Ok
  | BufError
  | StreamEnd
  | Error
  deriving DecidableEq, Repr

/-- Abstract behaviour of the external `flate2::Decompress`: `decompress`
takes the inflater state, the available input and the requested output length,
and returns a status, the number of input bytes consumed, the produced output
bytes and the next state; `reset` models `Decompress::reset(true)`. -/
structure InflaterModel (σ : Type) where
  decompress : σ → List Nat → Nat → ZlibStatus × Nat × List Nat × σ
  reset : σ → σ

/-- State of `ZlibReader` (`src/src/codec/zlib.rs`): the owned inflater, the
remaining input slice, and the bit-reader scratch (unused by the paths the
claims exercise, kept for fidelity). -/
structure ZlibReaderSt (σ : Type) where
  decompressor : σ
  input : List Nat
  buffer : Nat
  position : Nat

/-- One call of `Read::read` for `ZlibReader` (`src/src/codec/zlib.rs` lines
90-109): run `decompress`, drop the consumed input, and map the status —
`Ok` yields the produced bytes, `BufError` yields 0 bytes, an error or a
premature `StreamEnd` is an `InvalidData` I/O error. -/
def zlibReadOnce {σ : Type} (M : InflaterModel σ) (r : ZlibReaderSt σ)
    (outLen : Nat) : Res (List Nat × ZlibReaderSt σ) :=
  let (st, consumed, produced, d) := M.decompress r.decompressor r.input outLen
  let produced := produced.take outLen
  let r := { r with decompressor := d, input := r.input.drop consumed }
  match st with
  | .Ok => .ok (produced, r)
  | .BufError => .ok ([], r)
  | .StreamEnd => .err .IoError
  | .Error => .err .IoError

/-- The loop of `std::io::Read::read_exact`: keep calling `read` until the
buffer is filled; a read that returns 0 bytes first is `UnexpectedEof`.  Each
productive round shrinks `n`, so fuel `n + 1` always suffices. -/
def zlibReadExactGo {σ : Type} (M : InflaterModel σ) (fuel : Nat)
    (r : ZlibReaderSt σ) (n : Nat) : Res (List Nat × ZlibReaderSt σ) :=
  match fuel with
  | 0 => .oot
  | fuel + 1 =>
    if n = 0 then .ok ([], r)
    else
      match zlibReadOnce M r n with
      | .err e => .err e
      | .panic => .panic
      | .oot => .oot
      | .ok (b, r) =>
        if b.length = 0 then .err .IoError
        else
          match zlibReadExactGo M fuel r (n - b.length) with
          | .ok (b2, r2) => .ok (b ++ b2, r2)
          | .err e => .err e
          | .panic => .panic
          | .oot => .oot

/-- Model of `read_exact` on a `ZlibReader` buffer of length `n`. -/
def zlibReadExact {σ : Type} (M : InflaterModel σ) (r : ZlibReaderSt σ)
    (n : Nat) : Res (List Nat × ZlibReaderSt σ) :=
  zlibReadExactGo M (n + 1) r n

/-- Model of `ZlibReader::read_u8`. -/
def zlibReadU8 {σ : Type} (M : InflaterModel σ) (r : ZlibReaderSt σ) :
    Res (Nat × ZlibReaderSt σ) := do
  let (b, r) ← zlibReadExact M r 1
  .ok (b.getD 0 0, r)

/-- Model of `ZlibReader::into_inner`: the inflater is returned only when the
input slice was fully consumed; leftover bytes are an `InvalidData` error. -/
def zlibIntoInner {σ : Type} (r : ZlibReaderSt σ) : Res σ :=
  if r.input = [] then .ok r.decompressor else .err .IoError

/-! ## Common decoder helpers -/

/-- Rust slice indexing `l[i]`: out of bounds panics. -/
def listIx (l : List Nat) (i : Nat) : Res Nat :=
  if h : i < l.length then .ok (l.get ⟨i, h⟩) else .panic

/-- Rust slice `l[start..start + len]`: out of bounds panics. -/
def listSlice (l : List Nat) (start len : Nat) : Res (List Nat) :=
  if start + len ≤ l.length then .ok ((l.drop start).take len) else .panic

/-- The low four bytes of a `u32` in little-endian order
(`u32::to_le_bytes`). -/
def toLeBytes4 (v : Nat) : List Nat :=
  [v % 256, v / 2 ^ 8 % 256, v / 2 ^ 16 % 256, v / 2 ^ 24 % 256]

/-! ## The Tight decoder (`src/src/codec/tight.rs`)

The source keeps `ctrl`, `filter`, `palette` and `alpha_shift` in the decoder
struct, but every `decode` call reassigns them before use, so they are locals
here; the persistent state is the four zlib stream slots. -/

/-- The `alpha_shift` table of `TightDecoder::decode` (lines 45-55): the four
canonical channel masks; anything else hits `unreachable!()`, a panic. -/
def tightAlphaShift (pf : PixelFormat) : Res Nat :=
  let mask := pixelMask pf
  if mask = 0xffffff00 then .ok 0
  else if mask = 0xffff00ff then .ok 8
  else if mask = 0xff00ffff then .ok 16
  else if mask = 0x00ffffff then .ok 24
  else .panic

/-- Model of `TightDecoder::to_true_color` (lines 434-442): shift each colour
byte, masked by its channel max, to its channel position, put alpha 255 at
`alpha_shift`, and emit the `u32` in little-endian bytes. -/
def toTrueColor (alphaShift : Nat) (pf : PixelFormat) (color : List Nat) :
    List Nat :=
  toLeBytes4
    (((color.getD 0 0 &&& pf.red_max) <<< pf.red_shift) |||
      ((color.getD 1 0 &&& pf.green_max) <<< pf.green_shift) |||
      ((color.getD 2 0 &&& pf.blue_max) <<< pf.blue_shift) |||
      (255 <<< alphaShift))

/-- The compact length of `TightDecoder::read_data` (lines 96-110): 7 bits per
byte, continuation bit `0x80`, at most 3 bytes. -/
def readCompactLen (s : List Nat) : Res (Nat × List Nat) := do
  let (b0, s) ← readU8 s
  let len := b0 &&& 0x7f
  if b0 &&& 0x80 = 0x80 then do
    let (b1, s) ← readU8 s
    let len := len ||| ((b1 &&& 0x7f) <<< 7)
    if b1 &&& 0x80 = 0x80 then do
      let (b2, s) ← readU8 s
      .ok (len ||| (b2 <<< 14), s)
    else .ok (len, s)
  else .ok (len, s)

/-- Model of `TightDecoder::read_data`: compact length, then that many
bytes. -/
def readData (s : List Nat) : Res (List Nat × List Nat) := do
  let (len, s) ← readCompactLen s
  readExact len s

/-- Model of `TightDecoder::read_tight_data` (lines 411-432).  Below 12
uncompressed bytes the data is read raw from the stream; otherwise the
compact-length-prefixed compressed bytes feed stream slot `stream`, which is
`take`n (a `None` slot panics on `unwrap`), used through a `ZlibReader`, and
restored only when both `read_exact` and `into_inner` succeed. -/
def readTightData {σ : Type} (M : InflaterModel σ) (zlibs : List (Option σ))
    (stream : Nat) (input : List Nat) (size : Nat) :
    Res (List Nat × List Nat) × List (Option σ) :=
  if size < 12 then
    match readExact size input with
    | .ok (d, input) => (.ok (d, input), zlibs)
    | .err e => (.err e, zlibs)
    | .panic => (.panic, zlibs)
    | .oot => (.oot, zlibs)
  else
    match readData input with
    | .err e => (.err e, zlibs)
    | .panic => (.panic, zlibs)
    | .oot => (.oot, zlibs)
    | .ok (d, input) =>
      match zlibs.getD stream none with
      | none => (.panic, zlibs.set stream none)
      | some dec =>
        let zlibs := zlibs.set stream none
        let r : ZlibReaderSt σ := ⟨dec, d, 0, 0⟩
        match zlibReadExact M r size with
        | .err e => (.err e, zlibs)
        | .panic => (.panic, zlibs)
        | .oot => (.oot, zlibs)
        | .ok (data, r) =>
          match zlibIntoInner r with
          | .ok dec2 => (.ok (data, input), zlibs.set stream (some dec2))
          | .err e => (.err e, zlibs)
          | .panic => (.panic, zlibs)
          | .oot => (.oot, zlibs)

/-- The image built by `TightDecoder::fill_rect` (lines 135-139): the nested
`for _ in 0..width { for _ in 0..height { image.extend(&true_color) } }`. -/
def fillRectImage (tc : List Nat) (w h : Nat) : List Nat :=
  (List.range w).foldl
    (fun img _ => (List.range h).foldl (fun img2 _ => img2 ++ tc) img) []

/-- Model of `TightDecoder::fill_rect` (lines 116-142): read 3 colour bytes,
convert to a true-colour pixel, tile it over the rectangle. -/
def fillRect (alphaShift : Nat) (pf : PixelFormat) (rect : Rect)
    (input : List Nat) : Res (List VncEvent × List Nat) := do
  let (color, input) ← readExact 3 input
  let tc := toTrueColor alphaShift pf color
  .ok ([.RawImage rect (fillRectImage tc rect.width rect.height)], input)

/-- Model of `TightDecoder::jpeg_rect` (lines 144-159). -/
def jpegRect (rect : Rect) (input : List Nat) :
    Res (List VncEvent × List Nat) := do
  let (d, input) ← readData input
  .ok ([.JpegImage rect d], input)

/-- The RGB-to-pixel expansion loop of `copy_filter` (lines 227-231). -/
def copyFilterImage (alphaShift : Nat) (pf : PixelFormat) (data : List Nat)
    (size : Nat) : Res (List Nat) :=
  (List.range (size / 3)).foldlM
    (fun img k => do
      let rgb ← listSlice data (3 * k) 3
      (.ok (img ++ toTrueColor alphaShift pf rgb) : Res (List Nat)))
    []

/-- Model of `TightDecoder::copy_filter` (lines 205-236). -/
def copyFilter {σ : Type} (M : InflaterModel σ) (zlibs : List (Option σ))
    (stream : Nat) (alphaShift : Nat) (pf : PixelFormat) (rect : Rect)
    (input : List Nat) : Res (List VncEvent × List Nat) × List (Option σ) :=
  let size := rect.width * rect.height * 3
  if size = 0 then (.ok ([], input), zlibs)
  else
    match readTightData M zlibs stream input size with
    | (.err e, zlibs) => (.err e, zlibs)
    | (.panic, zlibs) => (.panic, zlibs)
    | (.oot, zlibs) => (.oot, zlibs)
    | (.ok (data, input), zlibs) =>
      match copyFilterImage alphaShift pf data size with
      | .ok image => (.ok ([.RawImage rect image], input), zlibs)
      | .err e => (.err e, zlibs)
      | .panic => (.panic, zlibs)
      | .oot => (.oot, zlibs)

/-- The indexed-to-RGB expansion of `mono_rect` (lines 289-307): 1-bit
indices, rows byte-aligned (`offset` resets at each row start), palette of two
3-byte entries. -/
def monoRectImage (alphaShift : Nat) (pf : PixelFormat) (palette : List Nat)
    (data : List Nat) (w total : Nat) : Res (List Nat) := do
  let st ← (List.range total).foldlM
    (fun (st : Nat × Int × List Nat) i => do
      let (offset, index, image) := st
      let (offset, index) :=
        if offset = 0 ∨ i % w = 0 then (8, index + 1) else (offset, index)
      let offset := offset - 1
      let b ← if index < 0 then (.panic : Res Nat) else listIx data index.toNat
      let sp := ((b >>> offset) &&& 1) * 3
      let entry ← listSlice palette sp 3
      (.ok (offset, index, image ++ toTrueColor alphaShift pf entry) :
        Res (Nat × Int × List Nat)))
    (8, -1, [])
  .ok st.2.2

/-- The indexed-to-RGB expansion of `palette_rect` (lines 323-336): one byte
per pixel indexing a 3-byte palette entry (an out-of-palette index panics on
the slice). -/
def paletteRectImage (alphaShift : Nat) (pf : PixelFormat)
    (palette : List Nat) (data : List Nat) (total : Nat) : Res (List Nat) :=
  (List.range total).foldlM
    (fun img i => do
      let b ← listIx data i
      let entry ← listSlice palette (b * 3) 3
      (.ok (img ++ toTrueColor alphaShift pf entry) : Res (List Nat)))
    []

/-- Model of `TightDecoder::palette_filter` (lines 238-276). -/
def paletteFilter {σ : Type} (M : InflaterModel σ) (zlibs : List (Option σ))
    (stream : Nat) (alphaShift : Nat) (pf : PixelFormat) (rect : Rect)
    (input : List Nat) : Res (List VncEvent × List Nat) × List (Option σ) :=
  match (do
    let (n, input) ← readU8 input
    let numColors := n + 1
    let (palette, input) ← readExact (numColors * 3) input
    (.ok (numColors, palette, input) :
      Res (Nat × List Nat × List Nat))) with
  | .err e => (.err e, zlibs)
  | .panic => (.panic, zlibs)
  | .oot => (.oot, zlibs)
  | .ok (numColors, palette, input) =>
    let bppIdx := if numColors ≤ 2 then 1 else 8
    let rowSize := (rect.width * bppIdx + 7) / 8
    let size := rect.height * rowSize
    if size = 0 then (.ok ([], input), zlibs)
    else
      match readTightData M zlibs stream input size with
      | (.err e, zlibs) => (.err e, zlibs)
      | (.panic, zlibs) => (.panic, zlibs)
      | (.oot, zlibs) => (.oot, zlibs)
      | (.ok (data, input), zlibs) =>
        let image :=
          if numColors = 2 then
            monoRectImage alphaShift pf palette data rect.width
              (rect.width * rect.height)
          else
            paletteRectImage alphaShift pf palette data
              (rect.width * rect.height)
        match image with
        | .ok image => (.ok ([.RawImage rect image], input), zlibs)
        | .err e => (.err e, zlibs)
        | .panic => (.panic, zlibs)
        | .oot => (.oot, zlibs)

/-- The per-channel body of the gradient predictor (lines 381-393), acting on
`(this_row, color)` for channel `index` at row position `x`.  The `u16`
addition `converted + rgb[index]` is modelled without its (release-mode)
wraparound, which no 8-bit-per-channel format can reach. -/
def gradientChannel (pf : PixelFormat) (prevRow : List Nat) (rgb : List Nat)
    (x : Nat) (st : List Nat × Nat) (index : Nat) : List Nat × Nat :=
  let (thisRow, color) := st
  let maxI := [pf.red_max, pf.green_max, pf.blue_max].getD index 0
  let shiftI := [pf.red_shift, pf.green_shift, pf.blue_shift].getD index 0
  let d : Int := (prevRow.getD (index + x) 0 : Int) +
    (thisRow.getD (index + x - 3) 0 : Int) -
    (prevRow.getD (index + x - 3) 0 : Int)
  let converted : Nat :=
    if d < 0 then 0 else if d > (maxI : Int) then maxI else d.toNat
  let v := (converted + rgb.getD index 0) &&& maxI
  let thisRow := thisRow.set (index + x) v
  (thisRow, color ||| ((v &&& maxI) <<< shiftI))

/-- One output row of the gradient filter (lines 371-405): walk `x` over the
row in steps of 3, predict each channel and emit the little-endian pixel. -/
def gradientRow (alphaShift : Nat) (pf : PixelFormat) (data : List Nat)
    (w : Nat) (prevRow thisRow : List Nat) (sp : Nat) (image : List Nat) :
    Res (List Nat × Nat × List Nat) :=
  (List.range w).foldlM
    (fun (st : List Nat × Nat × List Nat) k => do
      let (thisRow, sp, image) := st
      let x := 3 * k + 3
      let rgb ← listSlice data sp 3
      let (thisRow, color) :=
        (List.range 3).foldl (gradientChannel pf prevRow rgb x) (thisRow, 0)
      (.ok (thisRow, sp + 3, image ++ toLeBytes4 (color ||| (255 <<< alphaShift))) :
        Res (List Nat × Nat × List Nat)))
    (thisRow, sp, image)

/-- Model of `TightDecoder::gradient_filter` (lines 341-409): two swap rows of
`u16` predictions, row length `3 * width + 3`. -/
def gradientFilter {σ : Type} (M : InflaterModel σ) (zlibs : List (Option σ))
    (stream : Nat) (alphaShift : Nat) (pf : PixelFormat) (rect : Rect)
    (input : List Nat) : Res (List VncEvent × List Nat) × List (Option σ) :=
  let size := rect.width * rect.height * 3
  if size = 0 then (.ok ([], input), zlibs)
  else
    match readTightData M zlibs stream input size with
    | (.err e, zlibs) => (.err e, zlibs)
    | (.panic, zlibs) => (.panic, zlibs)
    | (.oot, zlibs) => (.oot, zlibs)
    | (.ok (data, input), zlibs) =>
      let rowLen := rect.width * 3 + 3
      let result := (List.range rect.height).foldlM
        (fun (st : List Nat × List Nat × Nat × List Nat) y => do
          let (row0, row1, sp, image) := st
          let (thisRow, prevRow) := if y % 2 = 0 then (row0, row1) else (row1, row0)
          let (thisRow, sp, image) ←
            gradientRow alphaShift pf data rect.width prevRow thisRow sp image
          let (row0, row1) := if y % 2 = 0 then (thisRow, prevRow) else (prevRow, thisRow)
          (.ok (row0, row1, sp, image) :
            Res (List Nat × List Nat × Nat × List Nat)))
        (List.replicate rowLen 0, List.replicate rowLen 0, 0, [])
      match result with
      | .ok (_, _, _, image) => (.ok ([.RawImage rect image], input), zlibs)
      | .err e => (.err e, zlibs)
      | .panic => (.panic, zlibs)
      | .oot => (.oot, zlibs)

/-- The `alpha_shift`-aware variant of `to_true_color` is shared; the gradient
filter instead ORs alpha in at the end, see `gradientRow`.  This definition is
the filter dispatch of `TightDecoder::basic_rect` (lines 161-203). -/
def basicRect {σ : Type} (M : InflaterModel σ) (zlibs : List (Option σ))
    (ctrlHigh : Nat) (alphaShift : Nat) (pf : PixelFormat) (rect : Rect)
    (input : List Nat) : Res (List VncEvent × List Nat) × List (Option σ) :=
  match (if ctrlHigh &&& 0x4 = 4 then readU8 input else .ok (0, input)) with
  | .err e => (.err e, zlibs)
  | .panic => (.panic, zlibs)
  | .oot => (.oot, zlibs)
  | .ok (filter, input) =>
    let streamId := ctrlHigh &&& 0x3
    if filter = 0 then copyFilter M zlibs streamId alphaShift pf rect input
    else if filter = 1 then paletteFilter M zlibs streamId alphaShift pf rect input
    else if filter = 2 then gradientFilter M zlibs streamId alphaShift pf rect input
    else (.err .InvalidImageData, zlibs)

/-- The stream-reset loop of `TightDecoder::decode` (lines 58-62):
`if (ctrl >> i) & 1 == 1 { self.zlibs[i].as_mut().unwrap().reset(true) }` —
an empty slot panics on the `unwrap`. -/
def tightResetStreams {σ : Type} (M : InflaterModel σ) (ctrl : Nat)
    (zlibs : List (Option σ)) : Res (List (Option σ)) :=
  (List.range 4).foldlM
    (fun zs i =>
      if (ctrl >>> i) &&& 1 = 1 then
        match zs.getD i none with
        | none => (.panic : Res (List (Option σ)))
        | some d => .ok (zs.set i (some (M.reset d)))
      else .ok zs)
    zlibs

/-- Model of `TightDecoder::decode` (lines 33-90): the alpha-shift table (a
non-canonical mask panics), the control byte, the stream resets, then the mode
dispatch on the upper nibble — 8 fill, 9 jpeg, 10 rejected, bit 3 clear basic,
anything else `InvalidImageData`. -/
def tightDecode {σ : Type} (M : InflaterModel σ) (pf : PixelFormat)
    (rect : Rect) (zlibs : List (Option σ)) (input : List Nat) :
    Res (List VncEvent × List Nat) × List (Option σ) :=
  match tightAlphaShift pf with
  | .err e => (.err e, zlibs)
  | .panic => (.panic, zlibs)
  | .oot => (.oot, zlibs)
  | .ok alphaShift =>
    match readU8 input with
    | .err e => (.err e, zlibs)
    | .panic => (.panic, zlibs)
    | .oot => (.oot, zlibs)
    | .ok (ctrl, input) =>
      match tightResetStreams M ctrl zlibs with
      | .err e => (.err e, zlibs)
      | .panic => (.panic, zlibs)
      | .oot => (.oot, zlibs)
      | .ok zlibs =>
        let ctrlHigh := ctrl >>> 4
        if ctrlHigh = 8 then
          match fillRect alphaShift pf rect input with
          | .ok out => (.ok out, zlibs)
          | .err e => (.err e, zlibs)
          | .panic => (.panic, zlibs)
          | .oot => (.oot, zlibs)
        else if ctrlHigh = 9 then
          match jpegRect rect input with
          | .ok out => (.ok out, zlibs)
          | .err e => (.err e, zlibs)
          | .panic => (.panic, zlibs)
          | .oot => (.oot, zlibs)
        else if ctrlHigh = 10 then (.err .InvalidImageData, zlibs)
        else if ctrlHigh &&& 0x8 = 0 then
          basicRect M zlibs ctrlHigh alphaShift pf rect input
        else (.err .InvalidImageData, zlibs)

/-! ## The Cursor decoder (`src/src/codec/cursor.rs`) -/

/-- The `alpha_idx` table of `CursorDecoder::decode` (lines 43-56): the four
canonical masks give 3/2/1/0 (mirrored to `3 - idx` for little-endian
formats); anything else hits `unreachable!()`, a panic. -/
def cursorAlphaIdx (pf : PixelFormat) : Res Nat := do
  let mask := pixelMask pf
  let idx ←
    if mask = 0xffffff00 then (.ok 3 : Res Nat)
    else if mask = 0xffff00ff then .ok 2
    else if mask = 0xff00ffff then .ok 1
    else if mask = 0x00ffffff then .ok 0
    else .panic
  .ok (if pf.big_endian_flag = 0 then 3 - idx else idx)

/-- The pixel loop of `CursorDecoder::decode` (lines 57-74): copy each 4-byte
pixel and overwrite its `alpha_idx` byte with 255 or 0 according to the mask
bit. -/
def cursorImage (alphaIdx : Nat) (pixels maskBytes : List Nat) (w h : Nat) :
    Res (List Nat) :=
  (List.range h).foldlM
    (fun image y =>
      (List.range w).foldlM
        (fun image x => do
          let maskIdx := y * ((w + 7) / 8) + x / 8
          let mb ← listIx maskBytes maskIdx
          let alpha := if ((mb <<< (x % 8)) % 256) &&& 0x80 > 0 then 255 else 0
          let pixIdx := (y * w + x) * 4
          let p0 ← listIx pixels pixIdx
          let p1 ← listIx pixels (pixIdx + 1)
          let p2 ← listIx pixels (pixIdx + 2)
          let p3 ← listIx pixels (pixIdx + 3)
          (.ok (image ++ ([p0, p1, p2, p3].set alphaIdx alpha)) :
            Res (List Nat)))
        image)
    []

/-- Model of `CursorDecoder::decode` (lines 14-79): read the pixel and mask
bytes, resolve the alpha byte position (panicking on a non-canonical mask),
and emit `SetCursor`. -/
def cursorDecode (pf : PixelFormat) (rect : Rect) (input : List Nat) :
    Res (List VncEvent × List Nat) := do
  let w := rect.width
  let h := rect.height
  let pixelsLength := w * h * pf.bits_per_pixel / 8
  let maskLength := (w + 7) / 8 * h
  let (pixels, input) ← readExact pixelsLength input
  let (maskBytes, input) ← readExact maskLength input
  let alphaIdx ← cursorAlphaIdx pf
  let image ← cursorImage alphaIdx pixels maskBytes w h
  .ok ([.SetCursor rect image], input)

/-! ## The ZRLE decoder (`src/src/codec/zrle.rs`) -/

/-- Model of `read_run_length` (lines 8-19): `run_length` starts at 1 and
accumulates bytes until one below 255; the iteration count is unbounded, hence
the fuel. -/
def readRunLengthGo {σ : Type} (M : InflaterModel σ) (fuel : Nat) (acc : Nat)
    (r : ZlibReaderSt σ) : Res (Nat × ZlibReaderSt σ) :=
  match fuel with
  | 0 => .oot
  | fuel + 1 => do
    let (p, r) ← zlibReadU8 M r
    let acc := acc + p
    if p = 255 then readRunLengthGo M fuel acc r else .ok (acc, r)

/-- Entry point of `read_run_length` with its initial accumulator 1. -/
def readRunLength {σ : Type} (M : InflaterModel σ) (fuel : Nat)
    (r : ZlibReaderSt σ) : Res (Nat × ZlibReaderSt σ) :=
  readRunLengthGo M fuel 1 r

/-- Model of `copy_true_color` (lines 21-35): a `[255; 4]` buffer receives
`compressed_bpp` bytes at offset `pad as usize`, and its first `bpp` bytes are
appended to `pixels`. -/
def copyTrueColor {σ : Type} (M : InflaterModel σ) (r : ZlibReaderSt σ)
    (pad : Bool) (compressedBpp bpp : Nat) (pixels : List Nat) :
    Res (List Nat × ZlibReaderSt σ) := do
  let (b, r) ← zlibReadExact M r compressedBpp
  let padN := if pad then 1 else 0
  let buf := (List.range 4).map
    (fun i => if padN ≤ i ∧ i < padN + compressedBpp then b.getD (i - padN) 255 else 255)
  .ok (pixels ++ buf.take bpp, r)

/-- Model of `copy_indexed` (lines 37-40): append
`palette[index * bpp .. index * bpp + bpp]`; an out-of-bounds slice panics. -/
def copyIndexed (palette : List Nat) (pixels : List Nat) (bpp index : Nat) :
    Res (List Nat) := do
  let entry ← listSlice palette (index * bpp) bpp
  .ok (pixels ++ entry)

/-- Repeated `copy_indexed` with a fixed index (the run loops of the solid and
RLE sub-cases). -/
def copyIndexedN (palette : List Nat) (bpp index : Nat) :
    Nat → List Nat → Res (List Nat)
  | 0, pixels => .ok pixels
  | n + 1, pixels => do
    let pixels ← copyIndexed palette pixels bpp index
    copyIndexedN palette bpp index n pixels

/-- A counted loop of `copy_true_color` calls (used both for the palette read
and for the raw true-colour tile case). -/
def copyTrueColorN {σ : Type} (M : InflaterModel σ) (pad : Bool)
    (compressedBpp bpp : Nat) :
    Nat → List Nat → ZlibReaderSt σ → Res (List Nat × ZlibReaderSt σ)
  | 0, pixels, r => .ok (pixels, r)
  | n + 1, pixels, r => do
    let (pixels, r) ← copyTrueColor M r pad compressedBpp bpp pixels
    copyTrueColorN M pad compressedBpp bpp n pixels r

/-- The packed-palette sub-case (lines 149-176): `bits_per_index`-wide indices
packed MSB-first, each row starting on a byte boundary, with the source's
`shift`/`encoded` update discipline (including the end-of-row refill). -/
def zrlePackedPixels {σ : Type} (M : InflaterModel σ) (palette : List Nat)
    (bpp : Nat) (bitsPerIndex : Nat) (width height : Nat)
    (r : ZlibReaderSt σ) : Res (List Nat × ZlibReaderSt σ) := do
  let (encoded, r) ← zlibReadU8 M r
  let mask := (1 <<< bitsPerIndex) - 1
  let st ← (List.range height).foldlM
    (fun (st : Nat × ZlibReaderSt σ × List Nat) y => do
      let (encoded, r, pixels) := st
      let stRow ← (List.range width).foldlM
        (fun (stx : Int × Nat × ZlibReaderSt σ × List Nat) _ => do
          let (shift, encoded, r, pixels) := stx
          let (shift, encoded, r) ←
            if shift < 0 then do
              let (encoded, r) ← zlibReadU8 M r
              (.ok (((8 : Int) - bitsPerIndex), encoded, r) :
                Res (Int × Nat × ZlibReaderSt σ))
            else .ok (shift, encoded, r)
          let idx := (encoded >>> shift.toNat) &&& mask
          let pixels ← copyIndexed palette pixels bpp idx
          (.ok (shift - bitsPerIndex, encoded, r, pixels) :
            Res (Int × Nat × ZlibReaderSt σ × List Nat)))
        (((8 : Int) - bitsPerIndex), encoded, r, pixels)
      let (shift, encoded, r, pixels) := stRow
      let (encoded, r) ←
        if shift < (8 : Int) - bitsPerIndex ∧ y < height - 1 then
          zlibReadU8 M r
        else .ok (encoded, r)
      (.ok (encoded, r, pixels) : Res (Nat × ZlibReaderSt σ × List Nat)))
    (encoded, r, [])
  .ok (st.2.2, st.2.1)

/-- The plain-RLE sub-case (lines 177-196): `{pixel, run}` pairs until the
tile is covered. -/
def zrlePlainRle {σ : Type} (M : InflaterModel σ) (fuel : Nat) (pad : Bool)
    (compressedBpp bpp pixelCount : Nat) (count : Nat) (pixels : List Nat)
    (r : ZlibReaderSt σ) : Res (List Nat × ZlibReaderSt σ) :=
  match fuel with
  | 0 => .oot
  | fuel + 1 =>
    if count < pixelCount then do
      let (pixel, r) ← copyTrueColor M r pad compressedBpp bpp []
      let (runLength, r) ← readRunLength M fuel r
      let pixels := pixels ++ (List.replicate runLength pixel).flatten
      zrlePlainRle M fuel pad compressedBpp bpp pixelCount (count + runLength)
        pixels r
    else .ok (pixels, r)

/-- The palette-RLE sub-case (lines 197-214): control byte with run flag and
7-bit index, extended run length when flagged. -/
def zrlePaletteRle {σ : Type} (M : InflaterModel σ) (fuel : Nat)
    (palette : List Nat) (bpp pixelCount : Nat) (count : Nat)
    (pixels : List Nat) (r : ZlibReaderSt σ) :
    Res (List Nat × ZlibReaderSt σ) :=
  match fuel with
  | 0 => .oot
  | fuel + 1 =>
    if count < pixelCount then do
      let (control, r) ← zlibReadU8 M r
      let longerThanOne := control &&& 0x80 > 0
      let index := control &&& 0x7f
      let (runLength, r) ←
        if longerThanOne then readRunLength M fuel r else .ok (1, r)
      let pixels ← copyIndexedN palette bpp index runLength pixels
      zrlePaletteRle M fuel palette bpp pixelCount (count + runLength) pixels r
    else .ok (pixels, r)

/-- One 64×64 (or edge-clipped) tile of `ZrleDecoder::decode` (lines
112-219): control byte, palette, then the five sub-encodings; the unmatched
`(is_rle, palette_size)` combinations are `InvalidImageData`. -/
def zrleTile {σ : Type} (M : InflaterModel σ) (fuel : Nat) (pad : Bool)
    (compressedBpp bpp : Nat) (width height : Nat) (r : ZlibReaderSt σ) :
    Res (List Nat × ZlibReaderSt σ) := do
  let pixelCount := height * width
  let (control, r) ← zlibReadU8 M r
  let isRle := control &&& 0x80 > 0
  let paletteSize := control &&& 0x7f
  let (palette, r) ← copyTrueColorN M pad compressedBpp bpp paletteSize [] r
  if isRle = false then
    if paletteSize = 0 then
      copyTrueColorN M pad compressedBpp bpp pixelCount [] r
    else if paletteSize = 1 then do
      let pixels ← copyIndexedN palette bpp 0 pixelCount []
      .ok (pixels, r)
    else if paletteSize ≤ 16 then
      let bitsPerIndex := if paletteSize = 2 then 1 else if paletteSize ≤ 4 then 2 else 4
      zrlePackedPixels M palette bpp bitsPerIndex width height r
    else .err .InvalidImageData
  else
    if paletteSize = 0 then
      zrlePlainRle M fuel pad compressedBpp bpp pixelCount 0 [] r
    else if 2 ≤ paletteSize ∧ paletteSize ≤ 127 then
      zrlePaletteRle M fuel palette bpp pixelCount 0 [] r
    else .err .InvalidImageData

/-- The inner `while x < rect.width` tile loop (lines 106-231), emitting one
`RawImage` per tile at its absolute position. -/
def zrleRowTiles {σ : Type} (M : InflaterModel σ) (fuel : Nat) (pad : Bool)
    (compressedBpp bpp : Nat) (rect : Rect) (y height : Nat) (x : Nat)
    (events : List VncEvent) (r : ZlibReaderSt σ) :
    Res (List VncEvent × ZlibReaderSt σ) :=
  match fuel with
  | 0 => .oot
  | fuel + 1 =>
    if x < rect.width then do
      let width := if x + 64 > rect.width then rect.width - x else 64
      let (pixels, r) ← zrleTile M fuel pad compressedBpp bpp width height r
      let events := events ++
        [VncEvent.RawImage ⟨rect.x + x, rect.y + y, width, height⟩ pixels]
      zrleRowTiles M fuel pad compressedBpp bpp rect y height (x + width)
        events r
    else .ok (events, r)

/-- The outer `while y < rect.height` tile loop (lines 98-233). -/
def zrleAllTiles {σ : Type} (M : InflaterModel σ) (fuel : Nat) (pad : Bool)
    (compressedBpp bpp : Nat) (rect : Rect) (y : Nat)
    (events : List VncEvent) (r : ZlibReaderSt σ) :
    Res (List VncEvent × ZlibReaderSt σ) :=
  match fuel with
  | 0 => .oot
  | fuel + 1 =>
    if y < rect.height then do
      let height := if y + 64 > rect.height then rect.height - y else 64
      let (events, r) ←
        zrleRowTiles M fuel pad compressedBpp bpp rect y height 0 events r
      zrleAllTiles M fuel pad compressedBpp bpp rect (y + height) events r
    else .ok (events, r)

/-- The post-`take` body of `ZrleDecoder::decode`: compute the compressed-bpp
rule and run the tile loops over the `ZlibReader`. -/
def zrleBody {σ : Type} (M : InflaterModel σ) (fuel : Nat) (pf : PixelFormat)
    (rect : Rect) (r : ZlibReaderSt σ) :
    Res (List VncEvent × ZlibReaderSt σ) :=
  let bpp := pf.bits_per_pixel / 8
  let (compressedBpp, pad) := zrleCompressedInfo pf
  zrleAllTiles M fuel pad compressedBpp bpp rect 0 [] r

/-- Model of `ZrleDecoder::decode` (lines 53-238).  The `u32` length and the
compressed bytes are read from the stream first (failures there leave the
inflater slot untouched); then `self.decompressor.take().unwrap()` panics on
an empty slot; the slot is restored only when the tile loops and
`into_inner` both succeed — any later error leaves it `None`. -/
def zrleDecode {σ : Type} (M : InflaterModel σ) (fuel : Nat)
    (pf : PixelFormat) (rect : Rect) (st : Option σ) (input : List Nat) :
    Res (List VncEvent × List Nat) × Option σ :=
  match readU32 input with
  | .err e => (.err e, st)
  | .panic => (.panic, st)
  | .oot => (.oot, st)
  | .ok (dataLen, input) =>
    match readExact dataLen input with
    | .err e => (.err e, st)
    | .panic => (.panic, st)
    | .oot => (.oot, st)
    | .ok (zlibData, input) =>
      match st with
      | none => (.panic, none)
      | some d =>
        match zrleBody M fuel pf rect ⟨d, zlibData, 0, 0⟩ with
        | .err e => (.err e, none)
        | .panic => (.panic, none)
        | .oot => (.oot, none)
        | .ok (events, r) =>
          match zlibIntoInner r with
          | .ok d2 => (.ok (events, input), some d2)
          | .err e => (.err e, none)
          | .panic => (.panic, none)
          | .oot => (.oot, none)

/-! ## Claim C1: VNC-Auth key derivation -/

/-- C1: the DES key built by `AuthHelper::read` is the first 8 bytes of the
password — zero-padded if shorter, truncated if longer — with each byte
bit-reversed; `bitReverseByte` genuinely reverses the bit order of a byte;
for password "pass" the key is the byte-wise bit-reverse of
`[0x70, 0x61, 0x73, 0x73, 0, 0, 0, 0]`, and for the empty password the key is
all zeros. -/
theorem c1_vncauth_key_bitreversed :
    (∀ credential : List Nat,
      authKey credential =
        ((credential ++ List.replicate 8 0).take 8).map bitReverseByte)
    ∧ (∀ c : Nat, c < 256 → ∀ j : Nat, j < 8 →
        Nat.testBit (bitReverseByte c) j = Nat.testBit c (7 - j))
    ∧ authKey [0x70, 0x61, 0x73, 0x73] =
        List.map bitReverseByte [0x70, 0x61, 0x73, 0x73, 0, 0, 0, 0]
    ∧ authKey [] = List.replicate 8 0 := by
  refine ⟨?_, ?_, by decide, by decide⟩
  · intro credential
    apply List.ext_getElem
    · simp [authKey]
    · intro i h1 h2
      simp only [authKey, List.getElem_map, List.getElem_range, List.getElem_take]
      have h8 : i < 8 := by simpa [authKey] using h1
      rcases Nat.lt_or_ge i credential.length with hlt | hge
      · rw [List.getElem_append_left hlt, List.getD_eq_getElem credential 0 hlt]
      · have hnone : credential[i]? = none := by
          simp [List.getElem?_eq_none_iff]
          omega
        rw [List.getElem_append_right hge, List.getElem_replicate]
        simp [List.getD, hnone]
  · intro c hc j hj
    interval_cases c <;> interval_cases j <;> decide

/-- Witness for C1 at concrete inputs. -/
theorem c1_vncauth_key_bitreversed_witness :
    authKey [0x70, 0x61, 0x73, 0x73] =
      (([0x70, 0x61, 0x73, 0x73] ++ List.replicate 8 0).take 8).map
        bitReverseByte
    ∧ Nat.testBit (bitReverseByte 0x70) 0 = Nat.testBit 0x70 7 :=
  ⟨c1_vncauth_key_bitreversed.1 [0x70, 0x61, 0x73, 0x73],
    c1_vncauth_key_bitreversed.2.1 0x70 (by decide) 0 (by decide)⟩

/-! ## Claim C2: version negotiation -/

/-- C2: the three known 12-byte banners parse to RFB33/RFB37/RFB38 and every
other 12-byte banner parses to RFB33; the handshake reads exactly 12 bytes,
negotiates the minimum of the client maximum and the server version under the
order RFB33 < RFB37 < RFB38, and writes back exactly the banner of the
negotiated version. -/
theorem c2_version_negotiation :
    (vncVersionOfBanner rfb33Banner = .RFB33
      ∧ vncVersionOfBanner rfb37Banner = .RFB37
      ∧ vncVersionOfBanner rfb38Banner = .RFB38)
    ∧ (∀ b : List Nat, b.length = 12 → b ≠ rfb33Banner → b ≠ rfb37Banner →
        b ≠ rfb38Banner → vncVersionOfBanner b = .RFB33)
    ∧ (∀ a b : VncVersion,
        (if vncVersionLt a b then a else b).rank = Nat.min a.rank b.rank)
    ∧ (∀ clientMax : VncVersion, ∀ stream : List Nat, 12 ≤ stream.length →
        ∃ neg : VncVersion,
          handshake clientMax stream =
            .ok ((neg, bannerOfVncVersion neg), stream.drop 12)
          ∧ neg.rank =
            Nat.min clientMax.rank (vncVersionOfBanner (stream.take 12)).rank) := by
  have hmin : ∀ a b : VncVersion,
      (if vncVersionLt a b then a else b).rank = Nat.min a.rank b.rank := by
    intro a b
    cases a <;> cases b <;> decide
  refine ⟨by decide, ?_, hmin, ?_⟩
  · intro b _ h33 h37 h38
    simp [vncVersionOfBanner, h33, h37, h38]
  · intro clientMax stream h12
    have hre : readExact 12 stream = .ok (stream.take 12, stream.drop 12) := by
      simp [readExact, h12]
    refine ⟨if vncVersionLt clientMax (vncVersionOfBanner (stream.take 12))
      then clientMax else vncVersionOfBanner (stream.take 12), ?_, hmin _ _⟩
    simp [handshake, hre, Bind.bind, Res.bind]

/-- Witness for C2 at a concrete input: client max RFB38, server banner
RFB 003.007, negotiated RFB37. -/
theorem c2_version_negotiation_witness :
    ∃ neg : VncVersion,
      handshake .RFB38 rfb37Banner = .ok ((neg, bannerOfVncVersion neg), [])
      ∧ neg.rank =
        Nat.min VncVersion.RFB38.rank (vncVersionOfBanner rfb37Banner).rank := by
  have h := c2_version_negotiation.2.2.2 .RFB38 rfb37Banner (by decide)
  simpa using h

/-! ## Claim C4: PixelFormat round-trip -/

/-- The C4 claim as stated: the byte⇄struct round-trip is the identity in
both directions, for every `PixelFormat` value and for every 16-byte
array. -/
def c4RoundTripClaim : Prop :=
  (∀ pf : PixelFormat, pixelFormatOfBytes (pixelFormatToBytes pf) = .ok pf)
  ∧ (∀ b : List Nat, b.length = 16 → (∀ x ∈ b, x < 256) →
      ∃ pf : PixelFormat,
        pixelFormatOfBytes b = .ok pf ∧ pixelFormatToBytes pf = b)

/-- C4 counterexample: the all-zero 16-byte array does not parse at all —
`TryFrom` rejects `bits_per_pixel = 0` with `WrongPixelFormat` — so the
round-trip is not the identity on every 16-byte array. -/
theorem c4_round_trip_counterexample : ¬ c4RoundTripClaim := by
  intro h
  obtain ⟨pf, hpf, -⟩ := h.2 (List.replicate 16 0) (by decide) (by decide)
  rw [show pixelFormatOfBytes (List.replicate 16 0) = .err .WrongPixelFormat
    from by decide] at hpf
  exact Res.noConfusion hpf

/-- C4 amended: the round-trip is the identity exactly on the parseable side —
serialising then parsing is the identity for every `PixelFormat` whose
`bits_per_pixel` is 8, 16 or 32 (with the `u16` max fields in range), and
parsing then serialising is the identity for every 16-byte array whose first
byte is 8, 16 or 32; arrays with any other first byte fail with
`WrongPixelFormat`. -/
theorem c4_round_trip_amended :
    (∀ pf : PixelFormat,
      (pf.bits_per_pixel = 8 ∨ pf.bits_per_pixel = 16 ∨ pf.bits_per_pixel = 32) →
      pf.red_max < 65536 → pf.green_max < 65536 → pf.blue_max < 65536 →
      pixelFormatOfBytes (pixelFormatToBytes pf) = .ok pf)
    ∧ (∀ b0 b1 b2 b3 b4 b5 b6 b7 b8 b9 b10 b11 b12 b13 b14 b15 : Nat,
        b0 < 256 → b1 < 256 → b2 < 256 → b3 < 256 → b4 < 256 → b5 < 256 →
        b6 < 256 → b7 < 256 → b8 < 256 → b9 < 256 → b10 < 256 → b11 < 256 →
        b12 < 256 → b13 < 256 → b14 < 256 → b15 < 256 →
        (b0 = 8 ∨ b0 = 16 ∨ b0 = 32) →
        ∃ pf : PixelFormat,
          pixelFormatOfBytes
            [b0, b1, b2, b3, b4, b5, b6, b7, b8, b9, b10, b11, b12, b13, b14, b15]
            = .ok pf
          ∧ pixelFormatToBytes pf =
            [b0, b1, b2, b3, b4, b5, b6, b7, b8, b9, b10, b11, b12, b13, b14, b15])
    ∧ (∀ b : List Nat,
        ¬(b.getD 0 0 = 8 ∨ b.getD 0 0 = 16 ∨ b.getD 0 0 = 32) →
        pixelFormatOfBytes b = .err .WrongPixelFormat) := by
  refine ⟨?_, ?_, ?_⟩
  · rintro ⟨bpp, dep, bef, tcf, rm, gm, bm, rs, gs, bs, p1, p2, p3⟩ hbpp h1 h2 h3
    dsimp only at hbpp h1 h2 h3
    rcases hbpp with h | h | h <;>
      (subst h
       simp [pixelFormatOfBytes, pixelFormatToBytes, beNat,
         Nat.shiftRight_eq_div_pow]
       omega)
  · intro b0 b1 b2 b3 b4 b5 b6 b7 b8 b9 b10 b11 b12 b13 b14 b15
    intro h0 h1 h2 h3 h4 h5 h6 h7 h8 h9 h10 h11 h12 h13 h14 h15 hb
    refine ⟨{ bits_per_pixel := b0, depth := b1, big_endian_flag := b2,
              true_color_flag := b3, red_max := b4 * 256 + b5,
              green_max := b6 * 256 + b7, blue_max := b8 * 256 + b9,
              red_shift := b10, green_shift := b11, blue_shift := b12,
              _padding_1 := b13, _padding_2 := b14, _padding_3 := b15 },
      ?_, ?_⟩
    · rcases hb with h | h | h <;>
        (subst h; simp [pixelFormatOfBytes, beNat])
    · rcases hb with h | h | h <;>
        (subst h
         simp [pixelFormatOfBytes, pixelFormatToBytes, beNat,
           Nat.shiftRight_eq_div_pow]
         omega)
  · intro b hb
    simp only [pixelFormatOfBytes]
    rw [if_pos (by omega)]

/-- Witness for C4 amended at concrete inputs. -/
theorem c4_round_trip_amended_witness :
    pixelFormatOfBytes (pixelFormatToBytes bgraPixelFormat) =
      .ok bgraPixelFormat
    ∧ pixelFormatOfBytes (List.replicate 16 7) = .err .WrongPixelFormat :=
  ⟨c4_round_trip_amended.1 bgraPixelFormat (by decide) (by decide) (by decide)
      (by decide),
    c4_round_trip_amended.2.2 (List.replicate 16 7) (by decide)⟩

/-! ## Claim C8: SetColorMapEntries handling -/

/-- C8 counterexample: a server message with type byte 1 makes
`ServerMsg::read` hit `unimplemented!()` — a panic — which is not the
`WrongServerMessage` error the claim promises. -/
theorem c8_colormap_counterexample :
    serverMsgRead [1, 0, 0, 0] = .panic
    ∧ Res.panic ≠ (.err .WrongServerMessage : Res (ServerMsg × List Nat)) := by
  exact ⟨by decide, by decide⟩

/-- C8 amended: a type byte of 1 (SetColorMapEntries) panics on
`unimplemented!()`; every type byte outside {0, 1, 2, 3} returns the fatal
`WrongServerMessage`. -/
theorem c8_server_msg_amended :
    (∀ s : List Nat, serverMsgRead (1 :: s) = .panic)
    ∧ (∀ b : Nat, 3 < b → ∀ s : List Nat,
        serverMsgRead (b :: s) = .err .WrongServerMessage) := by
  constructor
  · intro s
    rfl
  · intro b hb s
    obtain ⟨k, rfl⟩ : ∃ k, b = k + 4 := ⟨b - 4, by omega⟩
    rfl

/-- Witness for C8 amended at concrete inputs. -/
theorem c8_server_msg_amended_witness :
    serverMsgRead [1, 9, 9] = .panic
    ∧ serverMsgRead [7, 9, 9] = .err .WrongServerMessage :=
  ⟨c8_server_msg_amended.1 [9, 9], c8_server_msg_amended.2 7 (by decide) [9, 9]⟩

/-! ## Claim C9: closed-session behaviour -/

/-- C9: once `closed` is set (by `close`, or by observing the output channel
disconnected), `input`, `recv_event` and `poll_event` all fail with
`ClientNotRunning` and leave the state — in particular the `closed` flag —
unchanged; `close` always succeeds, sets `closed`, and is idempotent; and
observing the disconnected output channel on a live session sets the flag and
fails with `ClientNotRunning`. -/
theorem c9_closed_session :
    (∀ (st : VncInner) (ev : X11Event), st.closed = true →
      vncInnerInput st ev = (.err .ClientNotRunning, st))
    ∧ (∀ st : VncInner, st.closed = true →
        vncInnerRecvEvent st = (.errored .ClientNotRunning, st))
    ∧ (∀ st : VncInner, st.closed = true →
        vncInnerPollEvent st = (.err .ClientNotRunning, st))
    ∧ (∀ st : VncInner,
        (vncInnerClose st).1 = .ok () ∧ (vncInnerClose st).2.closed = true)
    ∧ (∀ st : VncInner,
        vncInnerClose (vncInnerClose st).2 = (.ok (), (vncInnerClose st).2))
    ∧ (∀ st : VncInner, st.closed = false → st.outputPending = [] →
        st.outputClosed = true →
        vncInnerRecvEvent st =
          (.errored .ClientNotRunning, { st with closed := true })
        ∧ vncInnerPollEvent st =
          (.err .ClientNotRunning, { st with closed := true })) := by
  refine ⟨?_, ?_, ?_, ?_, ?_, ?_⟩
  · intro st ev h
    simp [vncInnerInput, h]
  · intro st h
    simp [vncInnerRecvEvent, h]
  · intro st h
    simp [vncInnerPollEvent, h]
  · intro st
    exact ⟨rfl, rfl⟩
  · intro st
    simp [vncInnerClose]
  · intro st h hp hc
    simp [vncInnerRecvEvent, vncInnerPollEvent, h, hp, hc]

/-- Witness for C9 at a concrete closed session state. -/
theorem c9_closed_session_witness :
    vncInnerInput ⟨2, 2, [], false, [], false, none, none, true⟩ .Refresh =
      (.err .ClientNotRunning, ⟨2, 2, [], false, [], false, none, none, true⟩)
    ∧ vncInnerRecvEvent ⟨2, 2, [], false, [], true, none, none, false⟩ =
      (.errored .ClientNotRunning, ⟨2, 2, [], false, [], true, none, none, true⟩) := by
  refine ⟨c9_closed_session.1 _ _ rfl, ?_⟩
  have h := (c9_closed_session.2.2.2.2.2 ⟨2, 2, [], false, [], true, none, none, false⟩
    rfl rfl rfl).1
  simpa using h

/-! ## Claim C3: handshake failure error strings -/

theorem readExact_append (l r : List Nat) :
    readExact l.length (l ++ r) = .ok (l, r) := by
  simp [readExact]

theorem readU32_append (l r : List Nat) (h : l.length = 4) :
    readU32 (l ++ r) = .ok (beNat l, r) := by
  have h4 : readExact 4 (l ++ r) = .ok (l, r) := by
    rw [← h]
    exact readExact_append l r
  simp [readU32, h4, Bind.bind, Res.bind]

/-- The C3 claim as stated for the RFB33 security-type-0 path: after the zero
security type the client is said to read a 32-bit length and then exactly that
many bytes as the error message, so bytes beyond the announced length would be
left unread. -/
def c3ExactLengthClaim : Prop :=
  ∀ (len : Nat) (msg extra : List Nat), msg.length = len →
    validUtf8 (msg ++ extra) = true →
    securityTypesRead .RFB33
        ([0, 0, 0, 0] ++ [(len >>> 24) % 256, (len >>> 16) % 256,
          (len >>> 8) % 256, len % 256] ++ msg ++ extra)
      = .err (.General msg)

/-- C3 counterexample: with announced length 7, message "badpass" and one
extra trailing byte 0x58 ('X'), the code returns `General("badpassX")` — it
discards the length and reads to EOF — not `General("badpass")`. -/
theorem c3_error_string_counterexample : ¬ c3ExactLengthClaim := by
  intro h
  exact absurd
    (h 7 [98, 97, 100, 112, 97, 115, 115] [88] (by decide) (by decide))
    (by decide)

/-- C3 amended: on every handshake-failure path (security type 0 on RFB33,
security-type count 0 on RFB37/RFB38, failed VncAuth SecurityResult on
RFB33/RFB38) the client reads and discards a 32-bit length, then reads all
remaining bytes up to EOF as the UTF-8 error message and returns
`General(msg)`; in particular, when the RFB33 server sends length 7 and
"badpass" and then closes, the result is `General("badpass")`. -/
theorem c3_error_string_amended :
    (∀ tb lb msg : List Nat, tb.length = 4 → beNat tb % 256 = 0 →
      lb.length = 4 → validUtf8 msg = true →
      securityTypesRead .RFB33 (tb ++ lb ++ msg) = .err (.General msg))
    ∧ (∀ v : VncVersion, v ≠ .RFB33 → ∀ lb msg : List Nat, lb.length = 4 →
        validUtf8 msg = true →
        securityTypesRead v (0 :: (lb ++ msg)) = .err (.General msg))
    ∧ (∀ v : VncVersion, v = .RFB33 ∨ v = .RFB38 → ∀ lb msg : List Nat,
        lb.length = 4 → validUtf8 msg = true →
        authResultHandle v ([0, 0, 0, 1] ++ (lb ++ msg)) = .err (.General msg))
    ∧ securityTypesRead .RFB33
        ([0, 0, 0, 0] ++ [0, 0, 0, 7] ++ [98, 97, 100, 112, 97, 115, 115])
      = .err (.General [98, 97, 100, 112, 97, 115, 115]) := by
  have hreason : ∀ lb msg : List Nat, lb.length = 4 → validUtf8 msg = true →
      readErrorReason (lb ++ msg) = .ok (msg, []) := by
    intro lb msg hlb hmsg
    simp [readErrorReason, readU32_append lb msg hlb, Bind.bind, Res.bind,
      readToString, hmsg]
  refine ⟨?_, ?_, ?_, by decide⟩
  · intro tb lb msg htb hmod hlb hmsg
    rw [List.append_assoc] at *
    have h1 : readU32 (tb ++ (lb ++ msg)) = .ok (beNat tb, lb ++ msg) :=
      readU32_append tb (lb ++ msg) htb
    have h2 : securityTypeOfU8 (beNat tb % 256) = .ok .Invalid := by
      rw [hmod]
      rfl
    simp [securityTypesRead, h1, h2, hreason lb msg hlb hmsg,
      Bind.bind, Res.bind]
  · intro v hv lb msg hlb hmsg
    have hread : securityTypesRead v (0 :: (lb ++ msg)) = (do
        let (msg2, _) ← readErrorReason (lb ++ msg)
        (.err (.General msg2) : Res (List SecurityType × List Nat))) := by
      cases v with
      | RFB33 => exact absurd rfl hv
      | RFB37 => simp [securityTypesRead, readU8, Bind.bind, Res.bind]
      | RFB38 => simp [securityTypesRead, readU8, Bind.bind, Res.bind]
    rw [hread, hreason lb msg hlb hmsg]
    rfl
  · intro v hv lb msg hlb hmsg
    have h1 : readU32 (0 :: 0 :: 0 :: 1 :: (lb ++ msg)) = .ok (1, lb ++ msg) := by
      simpa [beNat] using readU32_append [0, 0, 0, 1] (lb ++ msg) (by decide)
    have hv37 : v ≠ .RFB37 := by
      rcases hv with h | h <;> (subst h; decide)
    simp [authResultHandle, h1, Bind.bind, Res.bind, authResultOfU32, hv37,
      hreason lb msg hlb hmsg]

/-- Witness for C3 amended at concrete inputs: a two-byte ASCII message "no"
after each failure signal. -/
theorem c3_error_string_amended_witness :
    securityTypesRead .RFB33 ([0, 0, 0, 0] ++ [0, 0, 0, 2] ++ [110, 111]) =
      .err (.General [110, 111])
    ∧ securityTypesRead .RFB38 (0 :: ([0, 0, 0, 2] ++ [110, 111])) =
      .err (.General [110, 111])
    ∧ authResultHandle .RFB38 ([0, 0, 0, 1] ++ ([0, 0, 0, 2] ++ [110, 111])) =
      .err (.General [110, 111]) :=
  ⟨c3_error_string_amended.1 [0, 0, 0, 0] [0, 0, 0, 2] [110, 111] (by decide)
      (by decide) (by decide) (by decide),
    c3_error_string_amended.2.1 .RFB38 (by decide) [0, 0, 0, 2] [110, 111]
      (by decide) (by decide),
    c3_error_string_amended.2.2.1 .RFB38 (Or.inr rfl) [0, 0, 0, 2] [110, 111]
      (by decide) (by decide)⟩

/-! ## Claim C6: ZRLE compressed bytes-per-pixel rule -/

/-- An RGB565 format (bpp 16, depth 16, true colour): a legal negotiated
format that the ZRLE decoder reads with 2 compressed bytes per pixel. -/
def c6Pf565 : PixelFormat :=
  { bits_per_pixel := 16, depth := 16, big_endian_flag := 0, true_color_flag := 1
    red_max := 31, green_max := 63, blue_max := 31
    red_shift := 11, green_shift := 5, blue_shift := 0
    _padding_1 := 0, _padding_2 := 0, _padding_3 := 0 }

/-- The big-endian variant of the 0x00ffffff mask layout: bpp 32, depth 24,
big-endian flag set, shifts 16/8/0. -/
def c6PfBgr24BE : PixelFormat :=
  { bgraPixelFormat with big_endian_flag := 1 }

/-- The C6 claim as stated, at one pixel format: 3 compressed bytes exactly
under the bpp-32/depth/true-colour/mask-end-byte condition, alpha at byte 0
(`alpha_at_first`) only for the little-endian-with-zero-low-byte combination,
and 4 compressed bytes in every other case. -/
def c6ClaimAt (pf : PixelFormat) : Prop :=
  ((zrleCompressedInfo pf).1 = 3 ↔
    (pf.bits_per_pixel = 32 ∧ pf.depth ≤ 24 ∧ pf.true_color_flag > 0 ∧
      (pixelMask pf &&& 0xff = 0 ∨ pixelMask pf &&& 0xff000000 = 0)))
  ∧ ((zrleCompressedInfo pf).1 = 3 →
      ((zrleCompressedInfo pf).2 = true ↔
        (pf.big_endian_flag = 0 ∧ pixelMask pf &&& 0xff = 0)))
  ∧ ((zrleCompressedInfo pf).1 ≠ 3 → (zrleCompressedInfo pf).1 = 4)

/-- The C6 claim as stated, over every negotiated pixel format (a parsed
format has `bits_per_pixel ∈ {8, 16, 32}`). -/
def c6Claim : Prop :=
  ∀ pf : PixelFormat,
    (pf.bits_per_pixel = 8 ∨ pf.bits_per_pixel = 16 ∨ pf.bits_per_pixel = 32) →
    c6ClaimAt pf

/-- C6 counterexample: for RGB565 the decoder uses 2 compressed bytes per
pixel, not 4; and for the big-endian 0x00ffffff layout it places alpha at
byte 0 (`alpha_at_first = true`) although the big-endian flag is set and the
low mask byte is nonzero, where the claim promises byte 3. -/
theorem c6_compressed_bpp_counterexample :
    ¬ c6ClaimAt c6Pf565 ∧ ¬ c6ClaimAt c6PfBgr24BE ∧ ¬ c6Claim := by
  refine ⟨by unfold c6ClaimAt; decide, by unfold c6ClaimAt; decide,
    fun h => absurd (h c6Pf565 (by decide)) (by unfold c6ClaimAt; decide)⟩

/-- C6 amended: 3 compressed bytes exactly when bpp is 32, true colour is
set, depth ≤ 24 and one end byte of the channel mask is zero; otherwise the
decoder uses `bits_per_pixel / 8` bytes (so 4 only for 32-bpp formats, 2 for
16 bpp, 1 for 8 bpp); alpha sits at byte 0 exactly when, additionally, either
the low mask byte is zero and the format is little-endian, or the low mask
byte is nonzero, the high mask byte is zero and the format is big-endian —
and at byte 3 in the remaining 3-byte combinations. -/
theorem c6_compressed_bpp_amended :
    ∀ pf : PixelFormat,
      ((pf.bits_per_pixel = 32 ∧ pf.true_color_flag > 0 ∧ pf.depth ≤ 24 ∧
          (pixelMask pf &&& 0xff = 0 ∨ pixelMask pf &&& 0xff000000 = 0)) →
        (zrleCompressedInfo pf).1 = 3)
      ∧ (¬(pf.bits_per_pixel = 32 ∧ pf.true_color_flag > 0 ∧ pf.depth ≤ 24 ∧
            (pixelMask pf &&& 0xff = 0 ∨ pixelMask pf &&& 0xff000000 = 0)) →
          (zrleCompressedInfo pf).1 = pf.bits_per_pixel / 8)
      ∧ ((pf.bits_per_pixel = 8 ∨ pf.bits_per_pixel = 16 ∨ pf.bits_per_pixel = 32) →
          ((zrleCompressedInfo pf).1 = 3 ↔
            (pf.bits_per_pixel = 32 ∧ pf.true_color_flag > 0 ∧ pf.depth ≤ 24 ∧
              (pixelMask pf &&& 0xff = 0 ∨ pixelMask pf &&& 0xff000000 = 0))))
      ∧ ((zrleCompressedInfo pf).2 = true ↔
          (pf.bits_per_pixel = 32 ∧ pf.true_color_flag > 0 ∧ pf.depth ≤ 24 ∧
            ((pixelMask pf &&& 0xff = 0 ∧ pf.big_endian_flag = 0) ∨
              (pixelMask pf &&& 0xff ≠ 0 ∧ pixelMask pf &&& 0xff000000 = 0 ∧
                pf.big_endian_flag > 0)))) := by
  intro pf
  simp only [zrleCompressedInfo]
  split_ifs with h1 h2 h3 <;>
    simp only [decide_eq_true_eq] <;>
    refine ⟨?_, ?_, ?_, ?_⟩ <;>
    first
      | tauto
      | (intro h; omega)

/-- Witness for C6 amended at concrete formats: BGRA gets 3 compressed bytes,
RGB565 gets 2. -/
theorem c6_compressed_bpp_amended_witness :
    (zrleCompressedInfo bgraPixelFormat).1 = 3
    ∧ (zrleCompressedInfo c6Pf565).1 = c6Pf565.bits_per_pixel / 8 :=
  ⟨(c6_compressed_bpp_amended bgraPixelFormat).1 (by decide),
    (c6_compressed_bpp_amended c6Pf565).2.1 (by decide)⟩

/-! ## Claim C7: non-canonical channel masks -/

/-- A degenerate but trivially well-behaved instantiation of the abstract
inflater, used to evaluate the decoders at concrete inputs: `decompress`
consumes nothing and produces nothing (`BufError`). -/
def trivialInflater : InflaterModel Unit :=
  ⟨fun s _ _ => (.BufError, 0, [], s), fun s => s⟩

/-- A pixel format whose combined channel mask (all max values zero) matches
none of the four canonical patterns. -/
def c7PfZeroMask : PixelFormat :=
  { bgraPixelFormat with red_max := 0, green_max := 0, blue_max := 0 }

/-- C7 counterexample: with a non-canonical channel mask the Tight decoder
and the Cursor decoder both panic on `unreachable!()` instead of returning
the `InvalidImageData` error the claim promises. -/
theorem c7_mask_counterexample :
    (tightDecode trivialInflater c7PfZeroMask ⟨0, 0, 1, 1⟩
        [some (), some (), some (), some ()] [0x80, 1, 2, 3]).1 = .panic
    ∧ cursorDecode c7PfZeroMask ⟨0, 0, 0, 0⟩ [] = .panic
    ∧ Res.panic ≠ (.err .InvalidImageData : Res (List VncEvent × List Nat)) := by
  refine ⟨by decide, by decide, by decide⟩

/-- C7 amended: for every pixel format whose combined channel mask is not one
of the four canonical patterns, decoding a Tight rectangle panics immediately
(before consuming any input), and decoding a Cursor pseudo-rectangle panics
once its pixel and mask bytes are available — neither returns
`InvalidImageData` nor any other error value. -/
theorem c7_mask_amended :
    (∀ {σ : Type} (M : InflaterModel σ) (pf : PixelFormat) (rect : Rect)
        (zlibs : List (Option σ)) (input : List Nat),
        pixelMask pf ≠ 0xffffff00 → pixelMask pf ≠ 0xffff00ff →
        pixelMask pf ≠ 0xff00ffff → pixelMask pf ≠ 0x00ffffff →
        tightDecode M pf rect zlibs input = (.panic, zlibs))
    ∧ (∀ (pf : PixelFormat) (rect : Rect) (input : List Nat),
        pixelMask pf ≠ 0xffffff00 → pixelMask pf ≠ 0xffff00ff →
        pixelMask pf ≠ 0xff00ffff → pixelMask pf ≠ 0x00ffffff →
        rect.width * rect.height * pf.bits_per_pixel / 8 +
          (rect.width + 7) / 8 * rect.height ≤ input.length →
        cursorDecode pf rect input = .panic) := by
  constructor
  · intro σ M pf rect zlibs input h1 h2 h3 h4
    simp [tightDecode, tightAlphaShift, h1, h2, h3, h4]
  · intro pf rect input h1 h2 h3 h4 hlen
    have e1 : readExact (rect.width * rect.height * pf.bits_per_pixel / 8)
        input = .ok (input.take (rect.width * rect.height * pf.bits_per_pixel / 8),
          input.drop (rect.width * rect.height * pf.bits_per_pixel / 8)) := by
      simp [readExact]
      omega
    have e2 : readExact ((rect.width + 7) / 8 * rect.height)
        (input.drop (rect.width * rect.height * pf.bits_per_pixel / 8)) =
        .ok ((input.drop (rect.width * rect.height * pf.bits_per_pixel / 8)).take
            ((rect.width + 7) / 8 * rect.height),
          (input.drop (rect.width * rect.height * pf.bits_per_pixel / 8)).drop
            ((rect.width + 7) / 8 * rect.height)) := by
      simp [readExact]
      omega
    simp [cursorDecode, e1, e2, cursorAlphaIdx, h1, h2, h3, h4,
      Bind.bind, Res.bind]

/-- Witness for C7 amended at the zero-mask format. -/
theorem c7_mask_amended_witness :
    tightDecode trivialInflater c7PfZeroMask ⟨0, 0, 1, 1⟩
        [some (), some (), some (), some ()] [0x80, 1, 2, 3] =
      (.panic, [some (), some (), some (), some ()])
    ∧ cursorDecode c7PfZeroMask ⟨0, 0, 1, 1⟩ [9, 9, 9, 9, 0x80] = .panic :=
  ⟨c7_mask_amended.1 trivialInflater c7PfZeroMask ⟨0, 0, 1, 1⟩
      [some (), some (), some (), some ()] [0x80, 1, 2, 3]
      (by decide) (by decide) (by decide) (by decide),
    c7_mask_amended.2 c7PfZeroMask ⟨0, 0, 1, 1⟩ [9, 9, 9, 9, 0x80]
      (by decide) (by decide) (by decide) (by decide) (by decide)⟩

/-! ## Claim C5: Tight fill mode -/

theorem foldl_append_replicate (tc : List Nat) (h : Nat) (init : List Nat) :
    (List.range h).foldl (fun img2 _ => img2 ++ tc) init =
      init ++ (List.replicate h tc).flatten := by
  induction h generalizing init with
  | zero => simp
  | succ h ih =>
    rw [List.range_succ, List.foldl_append, ih]
    simp [List.replicate_succ', List.flatten_append]

theorem fillRectImage_flatten (tc : List Nat) (w h : Nat) :
    fillRectImage tc w h = (List.replicate (w * h) tc).flatten := by
  induction w with
  | zero => simp [fillRectImage]
  | succ w ih =>
    unfold fillRectImage at ih ⊢
    rw [List.range_succ, List.foldl_append, ih]
    simp only [List.foldl_cons, List.foldl_nil]
    rw [foldl_append_replicate, Nat.succ_mul, List.replicate_add,
      List.flatten_append]

/-- C5: whenever the control byte has upper nibble 8 (fill mode) — and the
requested stream resets succeed — the Tight decoder consumes exactly the
control byte plus 3 colour bytes and emits a single `RawImage` covering the
rectangle with `width * height` copies of the 4-byte little-endian
true-colour pixel built from the colour bytes with alpha 255 at the alpha
position; in particular, control byte 0x80 with colour bytes 11 22 33 on rect
(0,0,2,2) under BGRA yields four pixels `33 22 11 FF`. -/
theorem c5_tight_fill :
    (∀ {σ : Type} (M : InflaterModel σ) (pf : PixelFormat) (rect : Rect)
        (zlibs zlibs2 : List (Option σ)) (a ctrl c1 c2 c3 : Nat)
        (rest : List Nat),
        tightAlphaShift pf = .ok a →
        ctrl >>> 4 = 8 →
        tightResetStreams M ctrl zlibs = .ok zlibs2 →
        tightDecode M pf rect zlibs (ctrl :: c1 :: c2 :: c3 :: rest) =
          (.ok ([VncEvent.RawImage rect
            ((List.replicate (rect.width * rect.height)
              (toTrueColor a pf [c1, c2, c3])).flatten)], rest), zlibs2))
    ∧ (tightDecode trivialInflater bgraPixelFormat ⟨0, 0, 2, 2⟩
          [some (), some (), some (), some ()] [0x80, 0x11, 0x22, 0x33]).1 =
        .ok ([VncEvent.RawImage ⟨0, 0, 2, 2⟩
          [0x33, 0x22, 0x11, 0xFF, 0x33, 0x22, 0x11, 0xFF,
           0x33, 0x22, 0x11, 0xFF, 0x33, 0x22, 0x11, 0xFF]], []) := by
  constructor
  · intro σ M pf rect zlibs zlibs2 a ctrl c1 c2 c3 rest ha hctrl hreset
    simp [tightDecode, ha, hreset, hctrl, readU8, fillRect, readExact,
      fillRectImage_flatten, Bind.bind, Res.bind]
  · decide

/-- Witness for C5 at the concrete scenario input. -/
theorem c5_tight_fill_witness :
    tightDecode trivialInflater bgraPixelFormat ⟨0, 0, 2, 2⟩
        [some (), some (), some (), some ()] [0x80, 0x11, 0x22, 0x33] =
      (.ok ([VncEvent.RawImage ⟨0, 0, 2, 2⟩
          ((List.replicate ((⟨0, 0, 2, 2⟩ : Rect).width * (⟨0, 0, 2, 2⟩ : Rect).height)
            (toTrueColor 24 bgraPixelFormat [0x11, 0x22, 0x33])).flatten)], []),
        [some (), some (), some (), some ()]) :=
  c5_tight_fill.1 trivialInflater bgraPixelFormat ⟨0, 0, 2, 2⟩
    [some (), some (), some (), some ()] [some (), some (), some (), some ()]
    24 0x80 0x11 0x22 0x33 [] (by decide) (by decide) (by decide)

/-! ## Claim C10: inflater slots left empty after a failed decode -/

/-- C10: whenever `ZrleDecoder::decode` fails after its header reads succeed
(so after `self.decompressor.take()`), the decoder's `decompressor` field is
left `None` instead of restored, and a subsequent `decode` on the same
decoder state (with well-formed header bytes) panics on the `unwrap` of
`None`; likewise, when `TightDecoder::read_tight_data` takes a zlib stream
slot and then fails, the slot is left `None`, and a later
`read_tight_data` on an empty slot panics on the `unwrap`. -/
theorem c10_inflater_lost_on_error :
    (∀ {σ : Type} (M : InflaterModel σ) (fuel : Nat) (pf : PixelFormat)
        (rect : Rect) (d : σ) (input : List Nat) (e : VncError)
        (dataLen : Nat) (input2 : List Nat),
        readU32 input = .ok (dataLen, input2) →
        dataLen ≤ input2.length →
        (zrleDecode M fuel pf rect (some d) input).1 = .err e →
        (zrleDecode M fuel pf rect (some d) input).2 = none)
    ∧ (∀ {σ : Type} (M : InflaterModel σ) (fuel : Nat) (pf : PixelFormat)
        (rect : Rect) (input : List Nat) (dataLen : Nat) (input2 : List Nat),
        readU32 input = .ok (dataLen, input2) →
        dataLen ≤ input2.length →
        zrleDecode M fuel pf rect none input = (.panic, none))
    ∧ (∀ {σ : Type} (M : InflaterModel σ) (zlibs : List (Option σ))
        (stream : Nat) (input : List Nat) (size : Nat) (e : VncError)
        (d : List Nat) (input3 : List Nat) (dec : σ),
        12 ≤ size →
        readData input = .ok (d, input3) →
        zlibs.getD stream none = some dec →
        (readTightData M zlibs stream input size).1 = .err e →
        (readTightData M zlibs stream input size).2 = zlibs.set stream none)
    ∧ (∀ {σ : Type} (M : InflaterModel σ) (zlibs : List (Option σ))
        (stream : Nat) (input : List Nat) (size : Nat)
        (d : List Nat) (input3 : List Nat),
        12 ≤ size →
        readData input = .ok (d, input3) →
        zlibs.getD stream none = none →
        (readTightData M zlibs stream input size).1 = .panic) := by
  refine ⟨?_, ?_, ?_, ?_⟩
  · intro σ M fuel pf rect d input e dataLen input2 h1 hlen
    have h2 : readExact dataLen input2 =
        .ok (input2.take dataLen, input2.drop dataLen) := by
      simp [readExact, hlen]
    simp only [zrleDecode, h1, h2]
    rcases hb : zrleBody M fuel pf rect ⟨d, input2.take dataLen, 0, 0⟩ with
      p | e2 | _ | _ <;> simp [hb]
    rcases hi : zlibIntoInner p.2 with d2 | e3 | _ | _ <;> simp [hi]
  · intro σ M fuel pf rect input dataLen input2 h1 hlen
    have h2 : readExact dataLen input2 =
        .ok (input2.take dataLen, input2.drop dataLen) := by
      simp [readExact, hlen]
    simp only [zrleDecode, h1, h2]
  · intro σ M zlibs stream input size e d input3 dec h12 hrd hslot
    have hns : ¬size < 12 := by omega
    simp only [readTightData, if_neg hns, hrd, hslot]
    rcases hx : zlibReadExact M ⟨dec, d, 0, 0⟩ size with p | e2 | _ | _ <;>
      simp [hx]
    rcases hi : zlibIntoInner p.2 with d2 | e3 | _ | _ <;> simp [hi]
  · intro σ M zlibs stream input size d input3 h12 hrd hslot
    have hns : ¬size < 12 := by omega
    simp only [readTightData, if_neg hns, hrd, hslot]

/-- Witness for C10 at concrete inputs: a ZRLE payload whose zlib bytes are
left unconsumed (rect 0×0 with a 1-byte payload) errors on `into_inner` and
empties the slot; the next decode panics; a Tight `read_tight_data` of 12
bytes from the trivial inflater fails on `read_exact` and empties slot 0; and
`read_tight_data` on an already-empty slot panics. -/
theorem c10_inflater_lost_on_error_witness :
    (zrleDecode trivialInflater 1 bgraPixelFormat ⟨0, 0, 0, 0⟩ (some ())
        [0, 0, 0, 1, 99]).2 = none
    ∧ zrleDecode trivialInflater 1 bgraPixelFormat ⟨0, 0, 0, 0⟩ none
        [0, 0, 0, 1, 99] = (.panic, none)
    ∧ (readTightData trivialInflater [some (), some (), some (), some ()] 0
        [0] 12).2 = [some (), some (), some (), some ()].set 0 none
    ∧ (readTightData trivialInflater [none, some (), some (), some ()] 0
        [0] 12).1 = .panic :=
  ⟨c10_inflater_lost_on_error.1 trivialInflater 1 bgraPixelFormat ⟨0, 0, 0, 0⟩
      () [0, 0, 0, 1, 99] .IoError 1 [99] (by decide) (by decide) (by decide),
    c10_inflater_lost_on_error.2.1 trivialInflater 1 bgraPixelFormat
      ⟨0, 0, 0, 0⟩ [0, 0, 0, 1, 99] 1 [99] (by decide) (by decide),
    c10_inflater_lost_on_error.2.2.1 trivialInflater
      [some (), some (), some (), some ()] 0 [0] 12 .IoError [] [] ()
      (by decide) (by decide) (by decide) (by decide),
    c10_inflater_lost_on_error.2.2.2 trivialInflater
      [none, some (), some (), some ()] 0 [0] 12 [] []
      (by decide) (by decide) (by decide)⟩

end VncRs
